import Mathlib

set_option maxRecDepth 100000

/-!
Verification of the alfred-golinks workflow (src/go.py) against its
natural-language specification.

The program is a query-to-results adapter: it takes a search string, calls a
search API, caches the response under a derived cache key, and formats a list
of results.  This file gives a shallow embedding of the data model and the
operations of go.py: pure Python functions become Lean functions on
String/List Char/Nat/Int, the exception-based control flow becomes explicit
Except-propagation, and the pieces of external library code the program leans
on (hashlib.md5, unicodedata.normalize, HTMLParser.unescape, and the
Alfred-Workflow cache/feedback helpers) are modelled from the specification,
each marked as such in its doc comment.

Machine integers are modelled as Nat with explicit reduction mod 2^32 where
the MD5 algorithm overflows; all definitions are executable so that concrete
witnesses evaluate by decide or rfl.
-/

namespace Golinks

/-! ## Python string primitives -/

/-- Whitespace characters stripped by Python's str.strip (the ASCII ones;
the queries handled by the workflow are ASCII-spaced). -/
def isPySpace (c : Char) : Bool :=
  c == ' ' || c == '\t' || c == '\n' || c == '\r' || c == Char.ofNat 11 || c == Char.ofNat 12

/-- Python str.strip: drop leading and trailing whitespace.
Models the strip() call on the raw query in do_search (go.py line 186). -/
def pyStrip (s : String) : String :=
  String.mk (((s.data.dropWhile isPySpace).reverse.dropWhile isPySpace).reverse)

/-- Python str.lower on a single character.  After asciify the key is pure
ASCII, so only the ASCII range matters (go.py line 119). -/
def pyLowerChar (c : Char) : Char :=
  if 'A' ≤ c && c ≤ 'Z' then Char.ofNat (c.toNat + 32) else c

/-- Python str.lower over a whole string. -/
def pyLowerStr (s : String) : String :=
  String.mk (s.data.map pyLowerChar)

/-- Membership in the character class of the regex [^a-z0-9-_;\.] used by
cache_key (go.py line 120): lowercase letters, digits, dash, underscore,
semicolon and dot. -/
def allowedClass (c : Char) : Bool :=
  ('a' ≤ c && c ≤ 'z') || ('0' ≤ c && c ≤ '9') ||
    c == '-' || c == '_' || c == ';' || c == '.'

/-- Characters safe for a storage path: the sanitized class together with
the directory separator the search/ namespace introduces. -/
def pathSafeChar (c : Char) : Bool :=
  allowedClass c || c == '/'

/-- The substitution re.sub(r'[^a-z0-9-_;\.]', '-', key): every character
outside the class is replaced by a dash (go.py line 120). -/
def sanitizeChars (l : List Char) : List Char :=
  l.map (fun c => if allowedClass c then c else '-')

/-- Helper for collapseDashes: walks the list remembering the previously
emitted character and drops a dash that directly follows a dash. -/
def collapseAux : Char → List Char → List Char
  | _, [] => []
  | prev, c :: rest =>
      if prev == '-' && c == '-' then collapseAux prev rest
      else c :: collapseAux c rest

/-- The substitution re.sub(r'-+', '-', key): every run of consecutive
dashes collapses to a single dash (go.py line 121). -/
def collapseDashes : List Char → List Char
  | [] => []
  | c :: rest => c :: collapseAux c rest

/-- Checks that no two consecutive characters of the list are both dashes. -/
def noDD : List Char → Bool
  | a :: b :: rest => !(a == '-' && b == '-') && noDD (b :: rest)
  | _ => true

/-! ## Text normalizer (asciify) -/

/-- Modelled from the spec: canonical Unicode decomposition (NFD), performed
in go.py by the external library call unicodedata.normalize('NFD', s)
(go.py line 101).  The spec describes it as separating base characters from
combining marks; this table covers the precomposed Latin letters with
diacritics (the accented inputs the spec exercises); characters outside the
table have no decomposition and are left unchanged. -/
def nfdTable : List (Char × List Char) :=
  [('à', ['a', '̀']), ('á', ['a', '́']), ('â', ['a', '̂']),
   ('ã', ['a', '̃']), ('ä', ['a', '̈']), ('å', ['a', '̊']),
   ('è', ['e', '̀']), ('é', ['e', '́']), ('ê', ['e', '̂']),
   ('ë', ['e', '̈']),
   ('ì', ['i', '̀']), ('í', ['i', '́']), ('î', ['i', '̂']),
   ('ï', ['i', '̈']),
   ('ò', ['o', '̀']), ('ó', ['o', '́']), ('ô', ['o', '̂']),
   ('õ', ['o', '̃']), ('ö', ['o', '̈']),
   ('ù', ['u', '̀']), ('ú', ['u', '́']), ('û', ['u', '̂']),
   ('ü', ['u', '̈']),
   ('ý', ['y', '́']), ('ÿ', ['y', '̈']),
   ('ñ', ['n', '̃']), ('ç', ['c', '̧']),
   ('À', ['A', '̀']), ('Á', ['A', '́']), ('Â', ['A', '̂']),
   ('Ã', ['A', '̃']), ('Ä', ['A', '̈']), ('Å', ['A', '̊']),
   ('È', ['E', '̀']), ('É', ['E', '́']), ('Ê', ['E', '̂']),
   ('Ë', ['E', '̈']),
   ('Ì', ['I', '̀']), ('Í', ['I', '́']), ('Î', ['I', '̂']),
   ('Ï', ['I', '̈']),
   ('Ò', ['O', '̀']), ('Ó', ['O', '́']), ('Ô', ['O', '̂']),
   ('Õ', ['O', '̃']), ('Ö', ['O', '̈']),
   ('Ù', ['U', '̀']), ('Ú', ['U', '́']), ('Û', ['U', '̂']),
   ('Ü', ['U', '̈']),
   ('Ý', ['Y', '́']),
   ('Ñ', ['N', '̃']), ('Ç', ['C', '̧'])]

/-- NFD decomposition of a single character via the table. -/
def nfdChar (c : Char) : List Char :=
  match nfdTable.find? (fun p => p.1 == c) with
  | some p => p.2
  | none => [c]

/-- NFD decomposition of a string (character-wise; the decomposable inputs
here have no multi-character interactions). -/
def nfd (s : String) : String :=
  String.mk ((s.data.map nfdChar).flatten)

/-- The asciify function of go.py (lines 91-103): NFD-decompose, then encode
as us-ascii with errors='ignore', which drops every character outside the
ASCII range (code point at least 128).  The unicodify wrapper is the identity
here because the embedding works directly on Unicode strings. -/
def asciify (s : String) : String :=
  String.mk ((nfd s).data.filter (fun c => c.toNat < 128))

/-! ## Content hash (_hash): UTF-8 encoding and MD5

The source computes hashlib.md5(query.encode('utf-8')).hexdigest()[:12]
(go.py lines 106-111).  hashlib is external library code; MD5 is modelled
from the spec ("first 12 hex digits of an MD5 digest of the UTF-8-encoded
query") by the standard MD5 algorithm, with 32-bit words as Nat reduced
mod 2^32. -/

/-- UTF-8 encoding of one character (standard 1-4 byte encoding of the
code point), as performed by Python's unicode.encode('utf-8'). -/
def utf8Char (c : Char) : List Nat :=
  let n := c.toNat
  if n < 128 then [n]
  else if n < 2048 then [192 + (n >>> 6), 128 + (n &&& 63)]
  else if n < 65536 then
    [224 + (n >>> 12), 128 + ((n >>> 6) &&& 63), 128 + (n &&& 63)]
  else
    [240 + (n >>> 18), 128 + ((n >>> 12) &&& 63), 128 + ((n >>> 6) &&& 63),
     128 + (n &&& 63)]

/-- UTF-8 encoding of a string as a byte list. -/
def utf8Encode (s : String) : List Nat :=
  (s.data.map utf8Char).flatten

/-- Modulus for 32-bit arithmetic. -/
def M32 : Nat := 4294967296

/-- All-ones 32-bit mask, used to express bitwise NOT as XOR. -/
def mask32 : Nat := 4294967295

/-- Left rotation of a 32-bit word. -/
def rotl32 (x n : Nat) : Nat :=
  ((x <<< n) % M32) ||| (x >>> (32 - n))

/-- MD5 round constants: floor(2^32 * abs(sin(i+1))) for i = 0..63. -/
def md5K : List Nat :=
  [0xd76aa478, 0xe8c7b756, 0x242070db, 0xc1bdceee,
   0xf57c0faf, 0x4787c62a, 0xa8304613, 0xfd469501,
   0x698098d8, 0x8b44f7af, 0xffff5bb1, 0x895cd7be,
   0x6b901122, 0xfd987193, 0xa679438e, 0x49b40821,
   0xf61e2562, 0xc040b340, 0x265e5a51, 0xe9b6c7aa,
   0xd62f105d, 0x02441453, 0xd8a1e681, 0xe7d3fbc8,
   0x21e1cde6, 0xc33707d6, 0xf4d50d87, 0x455a14ed,
   0xa9e3e905, 0xfcefa3f8, 0x676f02d9, 0x8d2a4c8a,
   0xfffa3942, 0x8771f681, 0x6d9d6122, 0xfde5380c,
   0xa4beea44, 0x4bdecfa9, 0xf6bb4b60, 0xbebfbc70,
   0x289b7ec6, 0xeaa127fa, 0xd4ef3085, 0x04881d05,
   0xd9d4d039, 0xe6db99e5, 0x1fa27cf8, 0xc4ac5665,
   0xf4292244, 0x432aff97, 0xab9423a7, 0xfc93a039,
   0x655b59c3, 0x8f0ccc92, 0xffeff47d, 0x85845dd1,
   0x6fa87e4f, 0xfe2ce6e0, 0xa3014314, 0x4e0811a1,
   0xf7537e82, 0xbd3af235, 0x2ad7d2bb, 0xeb86d391]

/-- MD5 per-round left-rotation amounts. -/
def md5S : List Nat :=
  [7, 12, 17, 22, 7, 12, 17, 22, 7, 12, 17, 22, 7, 12, 17, 22,
   5, 9, 14, 20, 5, 9, 14, 20, 5, 9, 14, 20, 5, 9, 14, 20,
   4, 11, 16, 23, 4, 11, 16, 23, 4, 11, 16, 23, 4, 11, 16, 23,
   6, 10, 15, 21, 6, 10, 15, 21, 6, 10, 15, 21, 6, 10, 15, 21]

/-- MD5 nonlinear round function for step i on words b, c, d. -/
def mdF (i b c d : Nat) : Nat :=
  if i < 16 then (b &&& c) ||| ((mask32 ^^^ b) &&& d)
  else if i < 32 then (d &&& b) ||| ((mask32 ^^^ d) &&& c)
  else if i < 48 then b ^^^ c ^^^ d
  else c ^^^ (b ||| (mask32 ^^^ d))

/-- MD5 message-word index for step i. -/
def mdG (i : Nat) : Nat :=
  if i < 16 then i
  else if i < 32 then (5 * i + 1) % 16
  else if i < 48 then (3 * i + 5) % 16
  else (7 * i) % 16

/-- Little-endian 32-bit word number j of a 64-byte block. -/
def md5Word (block : List Nat) (j : Nat) : Nat :=
  block.getD (4 * j) 0 + 256 * block.getD (4 * j + 1) 0 +
    65536 * block.getD (4 * j + 2) 0 + 16777216 * block.getD (4 * j + 3) 0

/-- One MD5 step: rotates the four-word state. -/
def md5Step (block : List Nat) (st : Nat × Nat × Nat × Nat) (i : Nat) :
    Nat × Nat × Nat × Nat :=
  let a := st.1
  let b := st.2.1
  let c := st.2.2.1
  let d := st.2.2.2
  let f := (mdF i b c d + a + md5K.getD i 0 + md5Word block (mdG i)) % M32
  (d, (b + rotl32 f (md5S.getD i 0)) % M32, b, c)

/-- MD5 compression of one 64-byte block into the running state. -/
def md5Block (st : Nat × Nat × Nat × Nat) (block : List Nat) :
    Nat × Nat × Nat × Nat :=
  let r := (List.range 64).foldl (md5Step block) st
  ((st.1 + r.1) % M32, (st.2.1 + r.2.1) % M32,
   (st.2.2.1 + r.2.2.1) % M32, (st.2.2.2 + r.2.2.2) % M32)

/-- Little-endian 8-byte encoding of the 64-bit message bit length. -/
def le8 (n : Nat) : List Nat :=
  [n % 256, (n >>> 8) % 256, (n >>> 16) % 256, (n >>> 24) % 256,
   (n >>> 32) % 256, (n >>> 40) % 256, (n >>> 48) % 256, (n >>> 56) % 256]

/-- MD5 padding: append the 0x80 byte, zero-pad to 56 mod 64, then append
the bit length little-endian. -/
def md5Pad (msg : List Nat) : List Nat :=
  msg ++ [128] ++ List.replicate ((119 - msg.length % 64) % 64) 0 ++
    le8 (8 * msg.length)

/-- Split a byte list into 64-byte blocks, paced by a fuel bounded below by
the block count; every step consumes 64 bytes, so the fuel chunks64
supplies never runs out. -/
def chunks64Fuel : Nat → List Nat → List (List Nat)
  | _, [] => []
  | 0, _ => []
  | fuel + 1, b :: rest => (b :: rest.take 63) :: chunks64Fuel fuel (rest.drop 63)

/-- Split a byte list into 64-byte blocks. -/
def chunks64 (l : List Nat) : List (List Nat) :=
  chunks64Fuel l.length l

/-- MD5 core: fold the compression function over the padded blocks starting
from the standard initial state. -/
def md5Core (msg : List Nat) : Nat × Nat × Nat × Nat :=
  (chunks64 (md5Pad msg)).foldl md5Block
    (0x67452301, 0xefcdab89, 0x98badcfe, 0x10325476)

/-- Little-endian 4-byte decomposition of a 32-bit state word. -/
def le4 (x : Nat) : List Nat :=
  [x % 256, (x >>> 8) % 256, (x >>> 16) % 256, (x >>> 24) % 256]

/-- The 16-byte MD5 digest of a byte list. -/
def md5DigestBytes (msg : List Nat) : List Nat :=
  le4 (md5Core msg).1 ++ le4 (md5Core msg).2.1 ++
    le4 (md5Core msg).2.2.1 ++ le4 (md5Core msg).2.2.2

/-- Lowercase hex digit for a value below 16. -/
def hexDigitCharAux : Nat → Char
  | 0 => '0' | 1 => '1' | 2 => '2' | 3 => '3'
  | 4 => '4' | 5 => '5' | 6 => '6' | 7 => '7'
  | 8 => '8' | 9 => '9' | 10 => 'a' | 11 => 'b'
  | 12 => 'c' | 13 => 'd' | 14 => 'e' | _ => 'f'

/-- Lowercase hex digit of n mod 16. -/
def hexDigitChar (n : Nat) : Char :=
  hexDigitCharAux (n % 16)

/-- Lowercase hex rendering of a byte list, two digits per byte, as in
Python's hexdigest(). -/
def bytesToHex : List Nat → List Char
  | [] => []
  | b :: rest => hexDigitChar (b / 16) :: hexDigitChar b :: bytesToHex rest

/-- The _hash function of go.py (lines 106-111): first 12 hex digits of the
MD5 digest of the UTF-8-encoded string. -/
def _hash (s : String) : String :=
  String.mk ((bytesToHex (md5DigestBytes (utf8Encode s))).take 12)

/-! ## Cache key derivation -/

/-- The cache_key function of go.py (lines 114-126): hash the original query,
asciify it, lowercase it, replace characters outside the allowed class with
dashes, append a dash and the hash, collapse dash runs, and prepend the
search/ namespace.  The cache-directory creation on lines 122-124 is
filesystem I/O and takes no part in the returned key, so it is omitted. -/
def cache_key (query : String) : String :=
  let h := _hash query
  let key1 := asciify query
  let key2 := pyLowerStr key1
  let key3 := String.mk (sanitizeChars key2.data) ++ "-" ++ h
  "search/" ++ String.mk (collapseDashes key3.data)

/-- The key-derivation procedure in the order the claim states it: sanitize,
collapse dash runs, and only then prepend the namespace and append the dash
and hash.  Named after the claim, for comparison with cache_key. -/
def claimedKeyOrder (query : String) : String :=
  "search/" ++ String.mk (collapseDashes (sanitizeChars (pyLowerStr (asciify query)).data)) ++
    "-" ++ _hash query

/-! ## HTML entity unescaping -/

/-- Modelled from the spec: the named HTML entities that the API's
ampersand-style escapes use, as resolved by the external stdlib helper
HTMLParser().unescape (go.py lines 59 and 156-157).  Python 2's entity
table has no apos entry, so none appears here. -/
def entityTable : List (String × String) :=
  [("amp", "&"), ("lt", "<"), ("gt", ">"), ("quot", "\x22")]

/-- Modelled from the spec: HTML-entity unescaping over the character list.
On an ampersand, a terminated entity name known to the table is replaced by
its expansion; anything else is kept verbatim.  The recursion is paced by a
fuel bounded below by the remaining input length; every step consumes at
least one input character, so the fuel unescapeChars supplies never runs
out. -/
def unescapeFuel : Nat → List Char → List Char
  | _, [] => []
  | 0, l => l
  | fuel + 1, c :: rest =>
      if c == '&' then
        let name := rest.takeWhile (fun x => x != ';')
        if name.length < rest.length then
          match entityTable.find? (fun p => p.1.data == name) with
          | some p => p.2.data ++ unescapeFuel fuel (rest.drop (name.length + 1))
          | none => c :: unescapeFuel fuel rest
        else c :: unescapeFuel fuel rest
      else c :: unescapeFuel fuel rest

/-- HTML-entity unescaping of a character list. -/
def unescapeChars (l : List Char) : List Char :=
  unescapeFuel l.length l

/-- HTML-entity unescaping of a string (h.unescape in go.py). -/
def unescape (s : String) : String :=
  String.mk (unescapeChars s.data)

/-! ## JSON values and Python-style access

The API response body is JSON; go.py trusts its shape and lets attribute,
key and type errors propagate.  JValue models parsed JSON (numbers as Int:
the schema's clicks counts are integers), and the access helpers model the
corresponding Python operations, returning the raised exception as an
Except error. -/

inductive JValue where
  | jnull
  | jbool (b : Bool)
  | jnum (n : Int)
  | jstr (s : String)
  | jarr (elems : List JValue)
  | jobj (fields : List (String × JValue))

/-- First value bound to a key in a JSON object, as Python dict lookup. -/
def lookupO (o : List (String × JValue)) (k : String) : Option JValue :=
  match o.find? (fun p => p.1 == k) with
  | some p => some p.2
  | none => none

/-- Python subscription d[k] with a string key: KeyError when the key is
absent, TypeError when the value is not a dict. -/
def jGetKey (j : JValue) (k : String) : Except String JValue :=
  match j with
  | .jobj o =>
      match lookupO o k with
      | some v => .ok v
      | none => .error ("KeyError: " ++ k)
  | _ => .error "TypeError: not subscriptable by string"

/-- Python iteration over a value: lists yield elements, dicts yield their
keys, strings yield one-character strings, anything else raises TypeError. -/
def jIter (j : JValue) : Except String (List JValue) :=
  match j with
  | .jarr l => .ok l
  | .jobj o => .ok (o.map (fun p => .jstr p.1))
  | .jstr s => .ok (s.data.map (fun c => .jstr (String.mk [c])))
  | _ => .error "TypeError: not iterable"

/-- Python truthiness of a parsed JSON value ('if not data' in go.py
line 170). -/
def jFalsy (j : JValue) : Bool :=
  match j with
  | .jnull => true
  | .jbool b => !b
  | .jnum n => n == 0
  | .jstr s => s.isEmpty
  | .jarr l => l.isEmpty
  | .jobj o => o.isEmpty

/-- Digit-string value, for Python int() applied to a string. -/
def digitsVal (l : List Char) : Option Nat :=
  match l with
  | [] => none
  | _ =>
      if l.all (fun c => '0' ≤ c && c ≤ '9') then
        some (l.foldl (fun acc c => 10 * acc + (c.toNat - 48)) 0)
      else none

/-- Python int() applied to a string: optional surrounding whitespace and
sign, then decimal digits; anything else raises ValueError (modelled as
none). -/
def pyParseInt (s : String) : Option Int :=
  match (pyStrip s).data with
  | '-' :: r => (digitsVal r).map (fun n => -(n : Int))
  | '+' :: r => (digitsVal r).map (fun n => (n : Int))
  | r => (digitsVal r).map (fun n => (n : Int))

/-- Python int() coercion of a JSON value (go.py line 158): numbers pass
through, booleans map to 0/1, numeric strings parse, anything else raises. -/
def pyInt (j : JValue) : Except String Int :=
  match j with
  | .jnum n => .ok n
  | .jbool b => .ok (if b then 1 else 0)
  | .jstr s =>
      match pyParseInt s with
      | some n => .ok n
      | none => .error "ValueError: invalid literal for int"
  | _ => .error "TypeError: int() argument"

/-- Python h.unescape applied to a JSON value: defined for strings only;
regex operations on a non-string raise TypeError. -/
def pyUnescape (j : JValue) : Except String String :=
  match j with
  | .jstr s => .ok (unescape s)
  | _ => .error "TypeError: expected string"

/-! ## Answers and the result mapper -/

/-- The Answer namedtuple of go.py (line 65): shortname, link, clicks. -/
structure Answer where
  shortname : String
  link : String
  clicks : Int
deriving DecidableEq, Repr

/-- The handle_answer function of go.py (lines 153-159):
Answer(h.unescape(d['shortname']), h.unescape(d['url']), int(d['clicks'])).
Python evaluates the arguments left to right and the first raised exception
aborts the construction; the nested matches model that propagation. -/
def handle_answer (d : JValue) : Except String Answer :=
  match jGetKey d "shortname" with
  | .error e => .error e
  | .ok sv =>
      match pyUnescape sv with
      | .error e => .error e
      | .ok sname =>
          match jGetKey d "url" with
          | .error e => .error e
          | .ok uv =>
              match pyUnescape uv with
              | .error e => .error e
              | .ok link =>
                  match jGetKey d "clicks" with
                  | .error e => .error e
                  | .ok cv =>
                      match pyInt cv with
                      | .error e => .error e
                      | .ok clicks =>
                          .ok { shortname := sname, link := link, clicks := clicks }

/-- Stable insertion relative to a strict before-ordering lt: the inserted
element passes over exactly the elements strictly before it, so elements it
ties with keep their places ahead of it. -/
def insertByLt {α : Type} (lt : α → α → Bool) (a : α) : List α → List α
  | [] => [a]
  | b :: l => if lt b a then b :: insertByLt lt a l else a :: b :: l

/-- Stable sort by the strict before-ordering lt, as Python's list.sort:
stable, ascending.  Implemented as stable insertion sort. -/
def sortByLt {α : Type} (lt : α → α → Bool) : List α → List α
  | [] => []
  | a :: l => insertByLt lt a (sortByLt lt l)

/-- The Python sort key of go.py line 174, lambda a: not a.clicks, with
False as 0 and True as 1 as Python orders booleans. -/
def pyNotClicks (a : Answer) : Nat :=
  if a.clicks == 0 then 1 else 0

/-- The sort performed by get_answers (go.py line 174):
answers.sort(key=lambda a: not a.clicks, reverse=False), a stable ascending
sort on that boolean key. -/
def sortAnswers (l : List Answer) : List Answer :=
  sortByLt (fun x y => pyNotClicks x < pyNotClicks y) l

/-- Strict before-ordering of the sort the claim states: descending by
clicks with zero or falsy clicks last.  Named after the claim, for
comparison with sortAnswers. -/
def claimedSortLt (x y : Answer) : Bool :=
  if x.clicks != 0 && y.clicks == 0 then true
  else if x.clicks == 0 && y.clicks != 0 then false
  else decide (y.clicks < x.clicks)

/-- The stable sort by descending clicks with falsy clicks last, exactly as
the claim words it. -/
def claimedSortAnswers (l : List Answer) : List Answer :=
  sortByLt claimedSortLt l

/-! ## API client -/

/-- The query parameters get_answers passes to the API (go.py lines
164-167): short_name is the query and limit the result cap. -/
structure Params where
  short_name : String
  limit : Nat
deriving DecidableEq, Repr

/-- An HTTP response as the program observes it: the status code and the
parsed JSON body, none when the body is not valid JSON so that .json()
raises. -/
structure Response where
  status : Nat
  body : Option JValue

/-- Success statuses: the 2xx range. -/
def is2xx (n : Nat) : Bool :=
  200 ≤ n && n < 300

/-- The get_url function of go.py (lines 129-144) as observed on a received
response: r.raise_for_status() raises on any non-success status and the
response is returned otherwise.  Modelled from the spec for the external
workflow.web transport: any non-2xx status raises; the User-Agent header
and logging are I/O without effect on the result. -/
def get_url (r : Response) : Except String Response :=
  if is2xx r.status then .ok r else .error "HTTPError"

/-- The api_call function of go.py (lines 147-150): fetch, then parse the
body as JSON; a malformed body raises a fatal parse error. -/
def api_call (r : Response) : Except String JValue :=
  match get_url r with
  | .error e => .error e
  | .ok r2 =>
      match r2.body with
      | some j => .ok j
      | none => .error "ValueError: malformed JSON"

/-- List-comprehension mapping with exception propagation, for
[handle_answer(d) for d in data['sites']] (go.py line 173): elements map
left to right and the first raised exception aborts the whole list. -/
def mapE (f : JValue → Except String Answer) : List JValue → Except String (List Answer)
  | [] => .ok []
  | d :: rest =>
      match f d with
      | .error e => .error e
      | .ok a =>
          match mapE f rest with
          | .error e => .error e
          | .ok as => .ok (a :: as)

/-- The get_answers function of go.py (lines 162-175), with the network
modelled as a function from request parameters to the observed response.
A falsy payload returns the empty result (the source returns an empty dict,
which every consumer treats as an empty sequence); otherwise the sites list
is mapped through handle_answer and sorted. -/
def get_answers (api : Params → Response) (query : String) (limit : Nat) :
    Except String (List Answer) :=
  match api_call (api { short_name := query, limit := limit }) with
  | .error e => .error e
  | .ok data =>
      if jFalsy data then .ok []
      else
        match jGetKey data "sites" with
        | .error e => .error e
        | .ok sites =>
            match jIter sites with
            | .error e => .error e
            | .ok elems =>
                match mapE handle_answer elems with
                | .error e => .error e
                | .ok answers => .ok (sortAnswers answers)

/-! ## Rendering and the cache store -/

/-- Default result cap (go.py line 38); the max_results environment
variable can override it. -/
def MAX_RESULTS : Nat := 50

/-- Default cache TTL in seconds (go.py line 41); the cache_max_age
environment variable can override it. -/
def CACHE_MAX_AGE : Nat := 20

/-- Icon shown on the update-available item (go.py line 29). -/
def ICON_UPDATE : String := "update-available.png"

/-- Modelled from the spec: the warning icon constant exported by the
external Alfred-Workflow library; only its identity matters here. -/
def ICON_WARNING : String := "ICON_WARNING"

/-- A display item sent to the launcher UI, with the fields go.py sets on
wf.add_item. -/
structure Item where
  title : String
  subtitle : String
  arg : Option String
  autocomplete : Option String
  uid : Option String
  valid : Bool
  icon : String
deriving DecidableEq, Repr

/-- The display item do_search emits for one answer (go.py lines 195-201):
title is the shortname, subtitle formats "(clicks) link", the actionable
argument is http://go/ followed by the shortname, the uid is the link. -/
def answerItem (a : Answer) : Item :=
  { title := a.shortname
    subtitle := "(" ++ toString a.clicks ++ ") " ++ a.link
    arg := some ("http://go/" ++ a.shortname)
    autocomplete := none
    uid := some a.link
    valid := true
    icon := "icon.png" }

/-- The update-available item (go.py lines 180-184); add_item leaves arg
unset and valid false by default. -/
def updateItem : Item :=
  { title := "A newer version is available"
    subtitle := "↩ to install update"
    arg := none
    autocomplete := some "workflow:update"
    uid := none
    valid := false
    icon := ICON_UPDATE }

/-- Modelled from the spec: wf.warn_empty of the external Alfred-Workflow
library (go.py line 203) appends a single advisory warning item exactly when
no item has been added yet. -/
def warn_empty (title subtitle : String) (items : List Item) : List Item :=
  if items.isEmpty then
    [{ title := title, subtitle := subtitle, arg := none, autocomplete := none,
       uid := none, valid := false, icon := ICON_WARNING }]
  else items

/-- Modelled from the spec: wf.cached_data of the external Alfred-Workflow
library (go.py line 191).  A stored entry carries its write timestamp and is
valid only while now - write_timestamp < max_age; a valid entry is returned
without calling the generator, otherwise the generator runs and its result
is the data (stored back under the key by the caller's store, captured by
do_search below).  The returned flag records whether the generator ran. -/
def cached_data (entry : Option (List Answer × Nat))
    (data_func : Unit → Except String (List Answer)) (now max_age : Nat) :
    Except String (List Answer × Bool) :=
  match entry with
  | some (xs, t) =>
      if now - t < max_age then .ok (xs, false)
      else (data_func ()).map (fun ys => (ys, true))
  | none => (data_func ()).map (fun ys => (ys, true))

/-- The environment one invocation of do_search runs in: the raw query, the
network, the cache store keyed by cache key with write timestamps, the
current time, the configured limits, and whether an update is available. -/
structure Env where
  rawQuery : String
  api : Params → Response
  store : String → Option (List Answer × Nat)
  now : Nat
  maxResults : Nat
  maxAge : Nat
  updateAvailable : Bool

/-- The observable outcome of a successful do_search run: the API request
issued (none on a cache hit), the cache entry written (none on a cache hit),
and the feedback items sent. -/
structure Output where
  request : Option Params
  cacheWrite : Option (String × List Answer × Nat)
  items : List Item
deriving Repr

/-- The do_search function of go.py (lines 177-204): strip the query, look
up the cache under cache_key, on miss or staleness fetch and map the
answers via get_answers and write them back, then render one item per
answer in order and fall back to the No Answers Found advisory when nothing
was added.  A raised exception anywhere before rendering aborts the run with
no cache write and no feedback, which the error branch models. -/
def do_search (env : Env) : Except String Output :=
  match cached_data (env.store (cache_key (pyStrip env.rawQuery)))
      (fun _ => get_answers env.api (pyStrip env.rawQuery) env.maxResults)
      env.now env.maxAge with
  | .error e => .error e
  | .ok (answers, usedNet) =>
      .ok { request :=
              if usedNet then
                some { short_name := pyStrip env.rawQuery, limit := env.maxResults }
              else none
            cacheWrite :=
              if usedNet then
                some (cache_key (pyStrip env.rawQuery), answers, env.now)
              else none
            items :=
              warn_empty "No Answers Found" "Try a different query"
                ((if env.updateAvailable then [updateItem] else []) ++
                  answers.map answerItem) }

/-- True of an Except value exactly when it is an error. -/
def exceptIsError {α : Type} : Except String α → Bool
  | .error _ => true
  | .ok _ => false

/-- A raw API record lacking one of the required fields shortname, url or
clicks. -/
def missingField (d : JValue) : Prop :=
  match d with
  | .jobj flds =>
      lookupO flds "shortname" = none ∨ lookupO flds "url" = none ∨
        lookupO flds "clicks" = none
  | _ => False

/-- The failure conditions of the claim on the observed response: a
non-success HTTP status, a malformed JSON body, or a well-formed payload one
of whose site records is missing a required field. -/
def badApiResponse (r : Response) : Prop :=
  is2xx r.status = false ∨
  (is2xx r.status = true ∧ r.body = none) ∨
  (∃ o sites d, is2xx r.status = true ∧ r.body = some (.jobj o) ∧
    lookupO o "sites" = some (.jarr sites) ∧ d ∈ sites ∧ missingField d)

/-! ## Lemmas about collapseDashes -/

theorem noDD_collapseAux (rest : List Char) :
    ∀ prev : Char, noDD (prev :: collapseAux prev rest) = true := by
  induction rest with
  | nil => intro prev; rfl
  | cons c r ih =>
      intro prev
      cases h : prev == '-' && c == '-' with
      | true => simpa only [collapseAux, h, if_true] using ih prev
      | false =>
          simp only [collapseAux, h, if_false]
          simp only [noDD, Bool.and_eq_true]
          exact ⟨by simp [h], ih c⟩

theorem noDD_collapseDashes (l : List Char) : noDD (collapseDashes l) = true := by
  cases l with
  | nil => rfl
  | cons c rest => exact noDD_collapseAux rest c

theorem collapseAux_subset (rest : List Char) :
    ∀ (prev c : Char), c ∈ collapseAux prev rest → c ∈ rest := by
  induction rest with
  | nil => intro prev c hc; simp [collapseAux] at hc
  | cons x r ih =>
      intro prev c hc
      cases h : prev == '-' && x == '-' with
      | true =>
          simp only [collapseAux, h, if_true] at hc
          exact List.mem_cons_of_mem x (ih prev c hc)
      | false =>
          simp only [collapseAux, h, if_false] at hc
          rcases List.mem_cons.1 hc with h1 | h2
          · exact h1 ▸ List.mem_cons_self x r
          · exact List.mem_cons_of_mem x (ih x c h2)

theorem collapseDashes_subset (l : List Char) :
    ∀ c, c ∈ collapseDashes l → c ∈ l := by
  cases l with
  | nil => intro c hc; simp [collapseDashes] at hc
  | cons a rest =>
      intro c hc
      rcases List.mem_cons.1 hc with h1 | h2
      · exact h1 ▸ List.mem_cons_self a rest
      · exact List.mem_cons_of_mem a (collapseAux_subset rest a c h2)

theorem noDD_cons {c : Char} {l : List Char} (hc : (c == '-') = false)
    (hl : noDD l = true) : noDD (c :: l) = true := by
  cases l with
  | nil => rfl
  | cons x r => simp only [noDD, Bool.and_eq_true]; exact ⟨by simp [hc], hl⟩

/-! ## Lemmas about the sort -/

theorem insertByLt_nonzero (a : Answer) (ha : pyNotClicks a = 0) (l : List Answer) :
    insertByLt (fun x y => pyNotClicks x < pyNotClicks y) a l = a :: l := by
  cases l with
  | nil => rfl
  | cons b r =>
      simp only [insertByLt, decide_eq_true_eq]
      rw [if_neg (by omega)]

theorem insertByLt_zero (a : Answer) (ha : pyNotClicks a = 1) :
    ∀ A Z : List Answer, (∀ b ∈ A, pyNotClicks b = 0) → (∀ z ∈ Z, pyNotClicks z = 1) →
      insertByLt (fun x y => pyNotClicks x < pyNotClicks y) a (A ++ Z) = A ++ a :: Z := by
  intro A
  induction A with
  | nil =>
      intro Z _ hZ
      cases Z with
      | nil => rfl
      | cons z r =>
          have hz : pyNotClicks z = 1 := hZ z (List.mem_cons_self z r)
          simp only [List.nil_append, insertByLt, decide_eq_true_eq]
          rw [if_neg (by omega)]
  | cons b A' ih =>
      intro Z hA hZ
      have hb : pyNotClicks b = 0 := hA b (List.mem_cons_self b A')
      rw [List.cons_append]
      simp only [insertByLt, decide_eq_true_eq]
      rw [if_pos (by omega), ih Z (fun x hx => hA x (List.mem_cons_of_mem b hx)) hZ,
        List.cons_append]

theorem sortAnswers_partition (l : List Answer) :
    sortAnswers l =
      l.filter (fun a => !(a.clicks == 0)) ++ l.filter (fun a => a.clicks == 0) := by
  induction l with
  | nil => rfl
  | cons a l ih =>
      show insertByLt (fun x y => pyNotClicks x < pyNotClicks y) a (sortAnswers l) = _
      rw [ih]
      cases h : a.clicks == 0 with
      | false =>
          have ha : pyNotClicks a = 0 := by simp [pyNotClicks, h]
          rw [insertByLt_nonzero a ha]
          simp [List.filter_cons, h]
      | true =>
          have ha : pyNotClicks a = 1 := by simp [pyNotClicks, h]
          rw [insertByLt_zero a ha _ _ ?_ ?_]
          · simp [List.filter_cons, h]
          · intro b hb
            have := (List.mem_filter.1 hb).2
            simp only [Bool.not_eq_true'] at this
            simp [pyNotClicks, this]
          · intro z hz
            have := (List.mem_filter.1 hz).2
            simp [pyNotClicks, this]

theorem filter_nonzero_of_nonzero (l : List Answer) :
    (l.filter (fun a => !(a.clicks == 0))).filter (fun a => !(a.clicks == 0)) =
      l.filter (fun a => !(a.clicks == 0)) := by
  induction l with
  | nil => rfl
  | cons a l ih =>
      cases h : a.clicks == 0 with
      | false => simp [List.filter_cons, h, ih]
      | true => simp [List.filter_cons, h, ih]

theorem filter_nonzero_of_zero (l : List Answer) :
    (l.filter (fun a => a.clicks == 0)).filter (fun a => !(a.clicks == 0)) = [] := by
  induction l with
  | nil => rfl
  | cons a l ih =>
      cases h : a.clicks == 0 with
      | false => simp [List.filter_cons, h, ih]
      | true => simp [List.filter_cons, h, ih]

/-! ## Lemmas about strings and the cache key -/

theorem data_append (a b : String) : (a ++ b).data = a.data ++ b.data := rfl

theorem mk_data (l : List Char) : (String.mk l).data = l := rfl

theorem cache_key_data (q : String) :
    (cache_key q).data =
      's' :: 'e' :: 'a' :: 'r' :: 'c' :: 'h' :: '/' ::
        collapseDashes (sanitizeChars (pyLowerStr (asciify q)).data ++
          '-' :: (_hash q).data) := by
  show ("search/" ++ String.mk (collapseDashes
      ((String.mk (sanitizeChars (pyLowerStr (asciify q)).data) ++ "-" ++ _hash q).data))).data = _
  rw [data_append, data_append, data_append, mk_data, mk_data]
  show 's' :: 'e' :: 'a' :: 'r' :: 'c' :: 'h' :: '/' :: collapseDashes _ = _
  rw [List.append_assoc]
  rfl

theorem sanitizeChars_allowed (l : List Char) :
    ∀ c ∈ sanitizeChars l, allowedClass c = true := by
  intro c hc
  obtain ⟨x, _, hx⟩ := List.mem_map.1 hc
  cases h : allowedClass x with
  | true => rw [← hx]; simp [h]
  | false =>
      rw [← hx, h, if_neg (show ¬(false = true) by decide)]
      decide

theorem hexDigitCharAux_allowed (m : Nat) : allowedClass (hexDigitCharAux m) = true :=
  match m with
  | 0 => by decide
  | 1 => by decide
  | 2 => by decide
  | 3 => by decide
  | 4 => by decide
  | 5 => by decide
  | 6 => by decide
  | 7 => by decide
  | 8 => by decide
  | 9 => by decide
  | 10 => by decide
  | 11 => by decide
  | 12 => by decide
  | 13 => by decide
  | 14 => by decide
  | _ + 15 => by show allowedClass 'f' = true; decide

theorem hexDigitChar_allowed (n : Nat) : allowedClass (hexDigitChar n) = true :=
  hexDigitCharAux_allowed (n % 16)

theorem bytesToHex_allowed (l : List Nat) :
    ∀ c ∈ bytesToHex l, allowedClass c = true := by
  induction l with
  | nil => intro c hc; simp [bytesToHex] at hc
  | cons b rest ih =>
      intro c hc
      simp only [bytesToHex, List.mem_cons] at hc
      rcases hc with rfl | rfl | hc
      · exact hexDigitChar_allowed _
      · exact hexDigitChar_allowed _
      · exact ih c hc

theorem bytesToHex_length (l : List Nat) : (bytesToHex l).length = 2 * l.length := by
  induction l with
  | nil => rfl
  | cons b rest ih => simp [bytesToHex, ih]; omega

theorem md5DigestBytes_length (msg : List Nat) : (md5DigestBytes msg).length = 16 := by
  simp [md5DigestBytes, le4]

theorem hash_length (q : String) : (_hash q).length = 12 := by
  show ((bytesToHex (md5DigestBytes (utf8Encode q))).take 12).length = 12
  rw [List.length_take, bytesToHex_length, md5DigestBytes_length]
  decide

theorem hash_chars_allowed (q : String) :
    ∀ c ∈ (_hash q).data, allowedClass c = true := by
  intro c hc
  have : c ∈ bytesToHex (md5DigestBytes (utf8Encode q)) :=
    List.take_subset 12 _ hc
  exact bytesToHex_allowed _ c this

theorem lookupO_not_isEmpty {o : List (String × JValue)} {k : String} {v : JValue}
    (h : lookupO o k = some v) : o.isEmpty = false := by
  cases o with
  | nil => simp [lookupO, List.find?] at h
  | cons p r => rfl

/-! ## Error propagation lemmas -/

theorem handle_answer_error_of_missing (d : JValue) (h : missingField d) :
    exceptIsError (handle_answer d) = true := by
  cases d with
  | jobj flds =>
      rcases h with h | h | h
      · simp [handle_answer, jGetKey, h, exceptIsError]
      · cases h1 : lookupO flds "shortname" with
        | none => simp [handle_answer, jGetKey, h1, exceptIsError]
        | some sv =>
            cases h2 : pyUnescape sv with
            | error e => simp [handle_answer, jGetKey, h1, h2, exceptIsError]
            | ok s => simp [handle_answer, jGetKey, h1, h2, h, exceptIsError]
      · cases h1 : lookupO flds "shortname" with
        | none => simp [handle_answer, jGetKey, h1, exceptIsError]
        | some sv =>
            cases h2 : pyUnescape sv with
            | error e => simp [handle_answer, jGetKey, h1, h2, exceptIsError]
            | ok s =>
                cases h3 : lookupO flds "url" with
                | none => simp [handle_answer, jGetKey, h1, h2, h3, exceptIsError]
                | some uv =>
                    cases h4 : pyUnescape uv with
                    | error e =>
                        simp [handle_answer, jGetKey, h1, h2, h3, h4, exceptIsError]
                    | ok u =>
                        simp [handle_answer, jGetKey, h1, h2, h3, h4, h, exceptIsError]
  | jnull => cases h
  | jbool b => cases h
  | jnum n => cases h
  | jstr s => cases h
  | jarr l => cases h

theorem mapE_error_of_mem (elems : List JValue) (d : JValue) (hd : d ∈ elems)
    (h : exceptIsError (handle_answer d) = true) :
    exceptIsError (mapE handle_answer elems) = true := by
  induction elems with
  | nil => cases hd
  | cons x rest ih =>
      rcases List.mem_cons.1 hd with rfl | hmem
      · cases hx : handle_answer d with
        | error e => simp [mapE, hx, exceptIsError]
        | ok a => rw [hx] at h; simp [exceptIsError] at h
      · cases hx : handle_answer x with
        | error e => simp [mapE, hx, exceptIsError]
        | ok a =>
            have hrest := ih hmem
            cases hr : mapE handle_answer rest with
            | error e => simp [mapE, hx, hr, exceptIsError]
            | ok as => rw [hr] at hrest; simp [exceptIsError] at hrest

theorem get_answers_error (api : Params → Response) (q : String) (limit : Nat)
    (hbad : badApiResponse (api { short_name := q, limit := limit })) :
    exceptIsError (get_answers api q limit) = true := by
  rcases hbad with h1 | ⟨h1, h2⟩ | ⟨o, sites, d, h1, h2, hsites, hmem, hmiss⟩
  · simp [get_answers, api_call, get_url, h1, exceptIsError]
  · simp [get_answers, api_call, get_url, h1, h2, exceptIsError]
  · have hfal : jFalsy (.jobj o) = false := by
      simp only [jFalsy]
      exact lookupO_not_isEmpty hsites
    have hmapE := mapE_error_of_mem sites d hmem (handle_answer_error_of_missing d hmiss)
    cases hmE : mapE handle_answer sites with
    | error e =>
        simp [get_answers, api_call, get_url, h1, h2, hfal, jGetKey, hsites, jIter,
          hmE, exceptIsError]
    | ok as => rw [hmE] at hmapE; simp [exceptIsError] at hmapE

/-! ## Claims -/

/-- C1, counterexample: the claim that get_answers sorts by descending
clicks fails on the code.  On answers with clicks [3, 5] the code's sort
(key = not clicks) leaves them as [3, 5], while the claimed
descending-by-clicks stable sort orders them [5, 3]. -/
theorem sortAnswers_descending_counterexample :
    sortAnswers [⟨"a", "la", 3⟩, ⟨"b", "lb", 5⟩] ≠
      claimedSortAnswers [⟨"a", "la", 3⟩, ⟨"b", "lb", 5⟩] := by
  decide

/-- C1, amended: the sort performed by get_answers is the stable partition
on the boolean key not clicks: answers with nonzero clicks come first in
their original API order, followed by answers with zero (falsy) clicks in
their original order; it does not order by click count.  In particular for
clicks [0, 5, 0, 3] the output order is [5, 3, 0(first), 0(second)], as the
claim's example states. -/
theorem sortAnswers_stable_partition :
    (∀ l : List Answer, sortAnswers l =
      l.filter (fun a => !(a.clicks == 0)) ++ l.filter (fun a => a.clicks == 0)) ∧
    sortAnswers [⟨"a0", "l0", 0⟩, ⟨"a5", "l5", 5⟩, ⟨"b0", "m0", 0⟩, ⟨"a3", "l3", 3⟩] =
      [⟨"a5", "l5", 5⟩, ⟨"a3", "l3", 3⟩, ⟨"a0", "l0", 0⟩, ⟨"b0", "m0", 0⟩] :=
  ⟨sortAnswers_partition, by decide⟩

/-- C2, counterexample: the claim's procedure (sanitize, collapse dash runs,
then prepend the namespace and append the dash and hash) disagrees with
cache_key on the query "go lang!", and its own result contains a run of two
dashes, contradicting the claimed consequence. -/
theorem cache_key_order_counterexample :
    cache_key "go lang!" ≠ claimedKeyOrder "go lang!" ∧
    noDD (claimedKeyOrder "go lang!").data = false :=
  ⟨by decide, by decide⟩

/-- C2, amended: cache_key replaces every character outside [a-z0-9-_;.]
with a dash, then appends a dash and the 12-hex-character hash, then
collapses every run of consecutive dashes into one, and finally prepends
search/; consequently the resulting key contains no run of two or more
consecutive dashes for any query. -/
theorem cache_key_collapse_order (q : String) :
    (cache_key q).data =
      's' :: 'e' :: 'a' :: 'r' :: 'c' :: 'h' :: '/' ::
        collapseDashes (sanitizeChars (pyLowerStr (asciify q)).data ++
          '-' :: (_hash q).data) ∧
    noDD (cache_key q).data = true := by
  refine ⟨cache_key_data q, ?_⟩
  rw [cache_key_data]
  exact noDD_cons (by decide) (noDD_cons (by decide) (noDD_cons (by decide)
    (noDD_cons (by decide) (noDD_cons (by decide) (noDD_cons (by decide)
      (noDD_cons (by decide) (noDD_collapseDashes _)))))))

/-- C3: a cache entry written at time T with TTL max_age is valid (returned
as a hit with no generator call) at every time strictly before T + max_age,
and is treated as stale (the generator regenerates the data) from T +
max_age on; the boundary at exactly T + max_age is exclusive. -/
theorem cached_data_ttl_boundary (xs : List Answer)
    (gen : Unit → Except String (List Answer)) (T now maxAge : Nat) (hT : T ≤ now) :
    (now < T + maxAge → cached_data (some (xs, T)) gen now maxAge = .ok (xs, false)) ∧
    (T + maxAge ≤ now →
      cached_data (some (xs, T)) gen now maxAge = (gen ()).map (fun ys => (ys, true))) := by
  constructor
  · intro h
    show (if now - T < maxAge then Except.ok (xs, false)
      else Except.map (fun ys => (ys, true)) (gen ())) = Except.ok (xs, false)
    rw [if_pos (by omega)]
  · intro h
    show (if now - T < maxAge then Except.ok (xs, false)
      else Except.map (fun ys => (ys, true)) (gen ())) =
        Except.map (fun ys => (ys, true)) (gen ())
    rw [if_neg (by omega)]

/-- C3, witness: with an entry written at 10 and TTL 20, time 29 is a hit
and time 30 regenerates. -/
theorem cached_data_ttl_boundary_witness :
    cached_data (some ([], 10)) (fun _ => .ok []) 29 20 = .ok ([], false) ∧
    cached_data (some ([], 10)) (fun _ => .ok []) 30 20 =
      (Except.ok ([] : List Answer)).map (fun ys => (ys, true)) :=
  ⟨(cached_data_ttl_boundary [] _ 10 29 20 (by decide)).1 (by decide),
   (cached_data_ttl_boundary [] _ 10 30 20 (by decide)).2 (by decide)⟩

/-- C4: the content-hash suffix is the first 12 hex digits of the MD5 digest
of the UTF-8-encoded original query, computed before any normalization, and
always has length 12; the queries Café and cafe normalize to the same
lowercase sanitized prefix yet produce different cache keys, because the
hash sees the original text. -/
theorem hash_of_original_query :
    (∀ q : String,
      _hash q = String.mk ((bytesToHex (md5DigestBytes (utf8Encode q))).take 12) ∧
      (_hash q).length = 12) ∧
    sanitizeChars (pyLowerStr (asciify "Café")).data =
      sanitizeChars (pyLowerStr (asciify "cafe")).data ∧
    cache_key "Café" ≠ cache_key "cafe" :=
  ⟨fun q => ⟨rfl, hash_length q⟩, by decide, by decide⟩

/-- C5: on a cache miss, a non-success HTTP status, a malformed JSON body,
or a site record missing one of the required fields shortname, url or
clicks makes the whole do_search run abort with an error; the error outcome
carries no cache write and no rendered items (the Output record exists only
on success), and the single observed response shows there is no retry. -/
theorem do_search_aborts_on_bad_response (env : Env)
    (hmiss : env.store (cache_key (pyStrip env.rawQuery)) = none)
    (hbad : badApiResponse
      (env.api { short_name := pyStrip env.rawQuery, limit := env.maxResults })) :
    exceptIsError (do_search env) = true := by
  have h := get_answers_error env.api (pyStrip env.rawQuery) env.maxResults hbad
  unfold do_search
  rw [hmiss]
  cases hg : get_answers env.api (pyStrip env.rawQuery) env.maxResults with
  | error e => simp [cached_data, hg, Except.map, exceptIsError]
  | ok xs => rw [hg] at h; simp [exceptIsError] at h

/-- C5, witness: a 404 response on an empty cache aborts the run. -/
theorem do_search_aborts_on_bad_response_witness :
    exceptIsError (do_search
      { rawQuery := "bugs", api := fun _ => { status := 404, body := none },
        store := fun _ => none, now := 0, maxResults := 50, maxAge := 20,
        updateAvailable := false }) = true :=
  do_search_aborts_on_bad_response _ rfl (Or.inl (by decide))

/-- C6: each Answer renders, in order, as an item whose title is its
shortname, whose subtitle formats "(clicks) link", whose actionable
argument is http://go/ followed by the shortname and whose uniqueness
identifier is the link; when the answer sequence is empty a single
No Answers Found advisory item is emitted instead. -/
theorem render_items_claim (answers : List Answer) :
    (answers ≠ [] →
      warn_empty "No Answers Found" "Try a different query" (answers.map answerItem) =
        answers.map answerItem) ∧
    (answers = [] →
      warn_empty "No Answers Found" "Try a different query" (answers.map answerItem) =
        [{ title := "No Answers Found", subtitle := "Try a different query", arg := none,
           autocomplete := none, uid := none, valid := false, icon := ICON_WARNING }]) ∧
    ∀ a : Answer, (answerItem a).title = a.shortname ∧
      (answerItem a).subtitle = "(" ++ toString a.clicks ++ ") " ++ a.link ∧
      (answerItem a).arg = some ("http://go/" ++ a.shortname) ∧
      (answerItem a).uid = some a.link ∧ (answerItem a).valid = true := by
  refine ⟨?_, ?_, fun a => ⟨rfl, rfl, rfl, rfl, rfl⟩⟩
  · intro h
    cases answers with
    | nil => exact absurd rfl h
    | cons x l => rfl
  · intro h
    subst h
    rfl

/-- C6, witness: one bugtracker answer renders as itself; the empty
sequence renders the advisory item. -/
theorem render_items_claim_witness :
    warn_empty "No Answers Found" "Try a different query"
        ([⟨"bugtracker", "http://x/1", 10⟩].map answerItem) =
      [⟨"bugtracker", "http://x/1", 10⟩].map answerItem ∧
    warn_empty "No Answers Found" "Try a different query" (([] : List Answer).map answerItem) =
      [{ title := "No Answers Found", subtitle := "Try a different query", arg := none,
         autocomplete := none, uid := none, valid := false, icon := ICON_WARNING }] :=
  ⟨(render_items_claim [⟨"bugtracker", "http://x/1", 10⟩]).1 (by decide),
   (render_items_claim []).2.1 rfl⟩

/-- C7: a query that strips to the empty string is not special-cased: on a
cache miss, do_search still issues the API request with short_name empty
and the configured limit, writes the result back under the derived key, and
renders whatever the API returned. -/
theorem do_search_empty_query (env : Env) (answers : List Answer)
    (hq : pyStrip env.rawQuery = "")
    (hmiss : env.store (cache_key "") = none)
    (hok : get_answers env.api "" env.maxResults = .ok answers) :
    do_search env = .ok
      { request := some { short_name := "", limit := env.maxResults },
        cacheWrite := some (cache_key "", answers, env.now),
        items := warn_empty "No Answers Found" "Try a different query"
          ((if env.updateAvailable then [updateItem] else []) ++ answers.map answerItem) } := by
  unfold do_search
  rw [hq, hmiss]
  simp [cached_data, hok, Except.map]

/-- C7, witness: a whitespace-only query against an empty cache and an API
returning an empty sites list issues the request with short_name empty and
renders the empty state. -/
theorem do_search_empty_query_witness :
    do_search
      { rawQuery := "  ",
        api := fun _ => { status := 200, body := some (.jobj [("sites", .jarr [])]) },
        store := fun _ => none, now := 7, maxResults := 50, maxAge := 20,
        updateAvailable := false } = .ok
      { request := some { short_name := "", limit := 50 },
        cacheWrite := some (cache_key "", [], 7),
        items := warn_empty "No Answers Found" "Try a different query"
          ((if false then [updateItem] else []) ++ ([] : List Answer).map answerItem) } :=
  do_search_empty_query _ [] (by decide) rfl rfl

/-- C8: cache_key is a deterministic (pure, hence idempotent across
derivations) function of the query, and every character of the produced key
is safe for use in a storage path: it lies in [a-z0-9-_;.] or is the
namespace separator slash. -/
theorem cache_key_deterministic_pathsafe (q : String) :
    cache_key q = cache_key q ∧ ∀ c ∈ (cache_key q).data, pathSafeChar c = true := by
  refine ⟨rfl, fun c hc => ?_⟩
  rw [cache_key_data] at hc
  simp only [List.mem_cons] at hc
  rcases hc with rfl | rfl | rfl | rfl | rfl | rfl | rfl | hc
  · decide
  · decide
  · decide
  · decide
  · decide
  · decide
  · decide
  · have hc2 := collapseDashes_subset _ c hc
    rcases List.mem_append.1 hc2 with h | h
    · have := sanitizeChars_allowed _ c h
      simp [pathSafeChar, this]
    · rcases List.mem_cons.1 h with rfl | h2
      · decide
      · have := hash_chars_allowed q c h2
        simp [pathSafeChar, this]

/-- C8, witness: the key for the query a b is equal to itself and its first
character s is path-safe. -/
theorem cache_key_deterministic_pathsafe_witness :
    cache_key "a b" = cache_key "a b" ∧ pathSafeChar 's' = true :=
  ⟨(cache_key_deterministic_pathsafe "a b").1,
   (cache_key_deterministic_pathsafe "a b").2 's' (by decide)⟩

/-- C9: a raw API record whose shortname and url fields are strings and
whose clicks field coerces to an integer maps to an Answer whose shortname
and url are HTML-entity-unescaped and whose clicks is that integer; in
particular the escape a&amp;b unescapes to a&b. -/
theorem handle_answer_unescapes (flds : List (String × JValue)) (s u : String)
    (cv : JValue) (c : Int)
    (hs : lookupO flds "shortname" = some (.jstr s))
    (hu : lookupO flds "url" = some (.jstr u))
    (hc : lookupO flds "clicks" = some cv)
    (hci : pyInt cv = .ok c) :
    handle_answer (.jobj flds) =
      .ok { shortname := unescape s, link := unescape u, clicks := c } ∧
    unescape "a&amp;b" = "a&b" := by
  constructor
  · simp [handle_answer, jGetKey, hs, hu, hc, pyUnescape, hci]
  · decide

/-- C9, witness: the record with shortname a&amp;b, url http://x/1 and
clicks 7 maps to the unescaped Answer. -/
theorem handle_answer_unescapes_witness :
    handle_answer (.jobj [("shortname", .jstr "a&amp;b"), ("url", .jstr "http://x/1"),
        ("clicks", .jnum 7)]) =
      .ok { shortname := unescape "a&amp;b", link := unescape "http://x/1", clicks := 7 } ∧
    unescape "a&amp;b" = "a&b" :=
  handle_answer_unescapes _ "a&amp;b" "http://x/1" (.jnum 7) 7 rfl rfl rfl rfl

/-- C10: among answers with nonzero clicks, the sort of get_answers
preserves the original API order exactly (the key only separates falsy from
nonzero clicks), so answers with clicks 3 before 5 stay in that order. -/
theorem sortAnswers_preserves_nonzero_order :
    (∀ l : List Answer, (sortAnswers l).filter (fun a => !(a.clicks == 0)) =
      l.filter (fun a => !(a.clicks == 0))) ∧
    sortAnswers [⟨"x", "lx", 3⟩, ⟨"y", "ly", 5⟩] = [⟨"x", "lx", 3⟩, ⟨"y", "ly", 5⟩] := by
  refine ⟨fun l => ?_, by decide⟩
  rw [sortAnswers_partition, List.filter_append, filter_nonzero_of_nonzero,
    filter_nonzero_of_zero, List.append_nil]

end Golinks
